import Mathlib

/-!
# AstraSync API — registration and verification record lifecycle

A shallow embedding of the AstraSync registry server (`api-index.js`, the
production iteration of the server; the other files in the repository are
earlier near-duplicate iterations of the same HTTP surface).

The embedding models:
* the JavaScript values that flow through the JSON request bodies
  (`JsVal`, with JS truthiness and the `||` defaulting operator);
* the persisted state: the `agents` table, the `email_queue` table and the
  `registration_attempts` audit table (`Store`);
* the `POST /v1/register` handler, including its `BEGIN`/`COMMIT`/`ROLLBACK`
  transaction (staged writes become visible only at commit) and the audit
  logging done through `logAttempt`;
* the read endpoints `GET /v1/verify/:agentId`, `GET /v1/agent/:agentId`
  and `GET /v1/agents/recent`.

Failure of the backing store is modelled by an oracle `Env` that says, for
each database operation the handler issues (in program order), whether it
succeeds.  A failing `logAttempt` is swallowed (the JS helper catches its own
errors); a failing statement inside the registration transaction routes the
handler to its `catch` block, which rolls the transaction back and answers 500.
-/

namespace AstraSync

/-- JavaScript runtime values, as far as the JSON payloads of this API need
them: `undefined`, `null`, booleans, (integer) numbers, strings and arrays.
A missing object property reads as `undef`. -/
inductive JsVal where
  | undef
  | null
  | bool (b : Bool)
  | num (n : Int)
  | str (s : String)
  | arr (xs : List JsVal)

/-- JavaScript truthiness: `undefined`, `null`, `false`, `0` and `""` are
falsy; every other value (including the empty array) is truthy. -/
def JsVal.truthy : JsVal → Bool
  | .undef => false
  | .null => false
  | .bool b => b
  | .num n => n != 0
  | .str s => s != ""
  | .arr _ => true

/-- The JavaScript `a || b` defaulting idiom. -/
def jsOr (a b : JsVal) : JsVal := if a.truthy then a else b

/-- `String.prototype.includes(c)` for a single character, on the underlying
character list (ASCII payloads; kernel-evaluable). -/
def strContains (s : String) (c : Char) : Bool := s.data.contains c

/-- `String.prototype.toLowerCase()`, character by character. -/
def strLower (s : String) : String := String.mk (s.data.map Char.toLower)

/-- A string or an absent (`undefined`) value, as an optional string. -/
def jsOfOptStr : Option String → JsVal
  | none => .undef
  | some s => .str s

/-- The `agent` object of a registration body.  Each property is an arbitrary
JavaScript value; a property the caller did not send is `JsVal.undef`. -/
structure AgentInput where
  name : JsVal
  description : JsVal
  owner : JsVal
  ownerUrl : JsVal
  capabilities : JsVal
  version : JsVal

/-- The body of `POST /v1/register`: `email`, the nested `agent` object, and
the top-level `name` property the handler falls back to for audit logging
(`req.body.agent?.name || req.body.name`). -/
structure RegisterBody where
  email : Option String
  agent : Option AgentInput
  name : JsVal

/-- The `agent_data` JSONB value built by the handler: required fields are
stored verbatim, optional ones are defaulted with `||`. -/
structure AgentData where
  name : JsVal
  description : JsVal
  owner : JsVal
  ownerUrl : JsVal
  capabilities : JsVal
  version : JsVal

/-- `agentData` as built at `api-index.js:248-255`. -/
def buildAgentData (a : AgentInput) : AgentData :=
  { name := a.name
    description := jsOr a.description (.str "")
    owner := a.owner
    ownerUrl := jsOr a.ownerUrl (.str "")
    capabilities := jsOr a.capabilities (.arr [])
    version := jsOr a.version (.str "1.0.0") }

/-- The `metadata` JSONB value: write-once provenance
(`api-index.js:257-263`). -/
structure Metadata where
  registrationMethod : String
  apiVersion : String
  ip : String
  userAgent : String
  source : String

/-- The request context the handler reads besides the body: client IP and the
`user-agent` / `x-source` headers (absent headers are `none`). -/
structure ReqCtx where
  ip : String
  userAgent : Option String
  source : Option String

/-- One row of the `agents` table (`id` is the primary key). -/
structure AgentRow where
  id : String
  internalId : String
  email : String
  status : String
  blockchainStatus : String
  trustScore : String
  registeredAt : Nat
  agentData : AgentData
  metadata : Metadata

/-- One row of the `email_queue` table.  The JSONB `data` column
(`{agentId, agentName, timestamp}`) is kept as three fields. -/
structure EmailJob where
  recipient : String
  subject : String
  template : String
  agentId : String
  agentName : JsVal
  timestamp : Nat

/-- One row of the `registration_attempts` audit table.  The free-form JSONB
`data` column (a dump of the request) carries no behaviour and is not
modelled; the queried columns are. -/
structure AttemptRow where
  eventType : String
  email : JsVal
  agentName : JsVal
  source : String

/-- The persisted state: the three tables the server writes. -/
structure Store where
  agents : List AgentRow
  emailQueue : List EmailJob
  attempts : List AttemptRow

/-- Backing-store oracle: `ok k` tells whether the `k`-th database operation
issued by a handler run succeeds. -/
structure Env where
  ok : Nat → Bool

/-- `logAttempt` (`api-index.js:100-120`): inserts one audit row through its
own connection (auto-committed, outside any open transaction) and swallows
its own failure.  Returns the store and the next operation index. -/
def logAttempt (env : Env) (k : Nat) (row : AttemptRow) (s : Store) : Store × Nat :=
  (if env.ok k then { s with attempts := s.attempts ++ [row] } else s, k + 1)

/-- `Math.random().toString(36)` renders the draw as `"0"` or `"0." ++ ds`
where `ds` are the base-36 fraction digits of the double, in shortest form
(so there are no trailing zero digits, and a draw with a short expansion
yields few digits).  `substring(2, 8).toUpperCase()` keeps the first six of
them, uppercased (`api-index.js:95`). -/
def randomSuffix (ds : List Char) : String :=
  String.mk ((ds.take 6).map Char.toUpper)

/-- `generateTempId` (`api-index.js:93-97`):
`TEMP-${Date.now()}-${Math.random().toString(36).substring(2,8).toUpperCase()}`. -/
def generateTempId (nowMs : Nat) (ds : List Char) : String :=
  "TEMP-" ++ toString nowMs ++ "-" ++ randomSuffix ds

/-- Email validation (`api-index.js:197`): `!email || !email.includes('@')`
rejects an absent email, the empty string, and any string without `@`. -/
def emailValid : Option String → Bool
  | none => false
  | some s => !(s == "") && strContains s '@'

/-- Agent-payload validation (`api-index.js:218`):
`!agent || !agent.name || !agent.owner` — JS truthiness on each field. -/
def agentValid : Option AgentInput → Bool
  | none => false
  | some a => a.name.truthy && a.owner.truthy

/-- The 201 response body of a successful registration
(`api-index.js:319-334`). -/
structure RegisterResponse where
  agentId : String
  status : String
  blockchainStatus : String
  blockchainMessage : String
  trustScore : String
  message : String
  verifyLink : String
  registeredAt : Nat

/-- Outcome of `POST /v1/register`: 201 with the response body, 400 with an
`error`/`message` pair, or 500 (the generic persistence-failure answer). -/
inductive RegisterResult where
  | created (resp : RegisterResponse)
  | badRequest (error : String) (message : String)
  | serverError

/-- The 201 response payload (`api-index.js:319-334`). -/
def successResponse (tempId baseUrl : String) (nowMs : Nat) : RegisterResponse :=
  { agentId := tempId, status := "registered", blockchainStatus := "pending"
    blockchainMessage := "Blockchain registration queued. You will be notified upon completion."
    trustScore := "TEMP-95%"
    message := "Agent registered successfully in DEVELOPER PREVIEW mode. Your TEMP credentials will automatically convert to permanent blockchain-verified credentials when you create an account at https://www.astrasync.ai/alphaSignup using the same email address."
    verifyLink := baseUrl ++ "/v1/verify/" ++ tempId
    registeredAt := nowMs }

/-- A handler run: its HTTP result, the final committed store, and the trace
of committed (observable) store states, in order, starting from the initial
one.  Writes staged inside an open transaction appear in no trace entry. -/
structure RegOut where
  result : RegisterResult
  store : Store
  trace : List Store

/-- The registration transaction (`api-index.js:266-302`): `BEGIN`, insert
the agent row, insert the email-queue row, `COMMIT`.  Both inserts are staged
on the transaction's connection; the committed store changes only if all
three operations (the two inserts and the commit) succeed, and then both rows
become visible together.  On any failure the `catch` block rolls back and the
committed store is unchanged.  Returns success flag, resulting committed
store, and the next operation index. -/
def txPersist (env : Env) (k : Nat) (row : AgentRow) (job : EmailJob) (s : Store) :
    Bool × Store × Nat :=
  if env.ok k then
    if env.ok (k + 1) then
      if env.ok (k + 2) then
        (true, { s with agents := s.agents ++ [row], emailQueue := s.emailQueue ++ [job] }, k + 3)
      else (false, s, k + 3)
    else (false, s, k + 2)
  else (false, s, k + 1)

/-- The agent row inserted by a valid registration (`api-index.js:269-283`,
with the `agentData` and `metadata` values of `api-index.js:248-263`). -/
def mkAgentRow (ctx : ReqCtx) (e : String) (a : AgentInput) (nowMs : Nat) (ds : List Char)
    (uuid : String) : AgentRow :=
  { id := generateTempId nowMs ds, internalId := uuid, email := e, status := "registered"
    blockchainStatus := "pending", trustScore := "TEMP-95%", registeredAt := nowMs
    agentData := buildAgentData a
    metadata :=
      { registrationMethod := "api", apiVersion := "v1", ip := ctx.ip
        userAgent := ctx.userAgent.getD "unknown", source := ctx.source.getD "direct-api" } }

/-- The email-queue row inserted by a valid registration
(`api-index.js:286-299`). -/
def mkEmailJob (e : String) (a : AgentInput) (nowMs : Nat) (ds : List Char) : EmailJob :=
  { recipient := e, subject := "AstraSync Agent Registration Confirmed"
    template := "registration_confirmed", agentId := generateTempId nowMs ds
    agentName := a.name, timestamp := nowMs }

/-- The `POST /v1/register` handler (`api-index.js:171-362`).

Inputs besides the request: the failure oracle `env`, the wall clock
`nowMs = Date.now()`, the base-36 fraction digits `ds` of the
`Math.random()` draw, the fresh UUID `uuid`, and the request's base URL
(for the verification link). -/
def register (env : Env) (ctx : ReqCtx) (body : RegisterBody) (nowMs : Nat)
    (ds : List Char) (uuid : String) (baseUrl : String) (s0 : Store) : RegOut :=
  let source := ctx.source.getD "direct-api"
  let emailJs := jsOfOptStr body.email
  let agentNameLog := jsOr (match body.agent with | some a => a.name | none => .undef) body.name
  -- log the attempt first (guaranteed to complete)
  let (s1, k1) := logAttempt env 0 ⟨"registration_attempt", emailJs, agentNameLog, source⟩ s0
  if emailValid body.email then
    match body.email, body.agent with
    | some e, ag =>
      if agentValid ag then
        match ag with
        | some a =>
          let tempId := generateTempId nowMs ds
          let row := mkAgentRow ctx e a nowMs ds uuid
          let job := mkEmailJob e a nowMs ds
          match txPersist env k1 row job s1 with
          | (true, s2, k2) =>
            -- committed; log the success (its failure is swallowed)
            let (s3, _) := logAttempt env k2 ⟨"registration_success", .str e, a.name, source⟩ s2
            { result := .created (successResponse tempId baseUrl nowMs)
              store := s3, trace := [s0, s1, s2, s3] }
          | (false, s2, k2) =>
            -- catch: ROLLBACK already reflected in s2; log the error, answer 500
            let (s3, _) := logAttempt env k2
              ⟨"registration_error", jsOr emailJs (.str "unknown")
               , jsOr agentNameLog (.str "unknown"), source⟩ s2
            { result := .serverError, store := s3, trace := [s0, s1, s2, s3] }
        | none =>
          -- unreachable: agentValid none = false
          { result := .serverError, store := s1, trace := [s0, s1] }
      else
        let (s2, _) := logAttempt env k1
          ⟨"registration_failed", .str e, jsOr agentNameLog (.str "missing-name"), source⟩ s1
        { result := .badRequest "Incomplete agent data"
            "Agent must have at least name and owner fields"
          store := s2, trace := [s0, s1, s2] }
    | none, _ =>
      -- unreachable: emailValid none = false
      { result := .serverError, store := s1, trace := [s0, s1] }
  else
    let (s2, _) := logAttempt env k1
      ⟨"registration_failed", jsOr emailJs (.str "invalid-email"), agentNameLog, source⟩ s1
    { result := .badRequest "Valid email address is required"
        "Please provide a valid email address for agent registration"
      store := s2, trace := [s0, s1, s2] }

/-- `SELECT * FROM agents WHERE id = $1` — first (and, `id` being the primary
key, only) row with the given id. -/
def findAgent (s : Store) (agentId : String) : Option AgentRow :=
  s.agents.find? (fun a => a.id == agentId)

/-- Is a row with this id committed? -/
def hasAgentId (s : Store) (agentId : String) : Bool :=
  s.agents.any (fun a => a.id == agentId)

/-- Is an email-queue job referencing this agent id committed? -/
def hasJobFor (s : Store) (agentId : String) : Bool :=
  s.emailQueue.any (fun j => j.agentId == agentId)

/-- The 200 response body of `GET /v1/verify/:agentId`
(`api-index.js:393-413`). -/
structure VerifyView where
  agentId : String
  status : String
  blockchainStatus : String
  blockchainMessage : String
  trustScore : String
  agentName : JsVal
  agentOwner : JsVal
  agentVersion : JsVal
  registeredAt : Nat
  verified : Bool
  message : String

/-- The view built from a found row (`api-index.js:393-413`). -/
def verifyView (a : AgentRow) : VerifyView :=
  { agentId := a.id
    status := a.status
    blockchainStatus := a.blockchainStatus
    blockchainMessage :=
      if a.blockchainStatus == "pending" then
        "Blockchain registration pending security audit completion"
      else "Registered on blockchain"
    trustScore := a.trustScore
    agentName := a.agentData.name
    agentOwner := a.agentData.owner
    agentVersion := a.agentData.version
    registeredAt := a.registeredAt
    verified := true
    message :=
      if a.trustScore.startsWith "TEMP" then
        "This is a DEVELOPER PREVIEW agent. Create an account at https://www.astrasync.ai/alphaSignup to convert to permanent credentials."
      else "Agent verified successfully" }

/-- Outcome of `GET /v1/verify/:agentId`: 200 with the public view, or 404. -/
inductive VerifyResult where
  | ok (v : VerifyView)
  | notFound (error : String) (message : String)

/-- The `GET /v1/verify/:agentId` handler (`api-index.js:365-421`), as its
response function on the committed store.  (The handler also appends a
`verification_attempt` audit row, which does not influence the response.) -/
def verify (s : Store) (agentId : String) : VerifyResult :=
  match findAgent s agentId with
  | none => .notFound "Agent not found" ("No agent found with ID: " ++ agentId)
  | some a => .ok (verifyView a)

/-- The 200 response body of `GET /v1/agent/:agentId` — the full record,
internal id, owner email and metadata included (`api-index.js:458-468`). -/
structure FullView where
  id : String
  internalId : String
  email : String
  status : String
  blockchainStatus : String
  trustScore : String
  registeredAt : Nat
  agentData : AgentData
  metadata : Metadata

/-- Outcome of `GET /v1/agent/:agentId`. -/
inductive DetailsResult where
  | ok (v : FullView)
  | badRequest (error : String) (message : String)
  | notFound (error : String)
  | unauthorized (error : String) (message : String)

/-- The `GET /v1/agent/:agentId?email=` handler (`api-index.js:424-475`).
`if (!email)` treats both an absent and an empty `email` query parameter as
missing (both are falsy); ownership is checked by case-insensitive string
comparison. -/
def getDetails (s : Store) (agentId : String) (email : Option String) : DetailsResult :=
  match email with
  | none => .badRequest "Email required" "Please provide email parameter for verification"
  | some e =>
    if e == "" then
      .badRequest "Email required" "Please provide email parameter for verification"
    else
      match findAgent s agentId with
      | none => .notFound "Agent not found"
      | some a =>
        if !(strLower e == strLower a.email) then
          .unauthorized "Unauthorized" "Email does not match agent registration"
        else
          .ok { id := a.id, internalId := a.internalId, email := a.email, status := a.status
                blockchainStatus := a.blockchainStatus, trustScore := a.trustScore
                registeredAt := a.registeredAt, agentData := a.agentData
                metadata := a.metadata }

/-- One entry of the `GET /v1/agents/recent` listing (`api-index.js:490-496`). -/
structure RecentSummary where
  agentId : String
  name : JsVal
  owner : JsVal
  registeredAt : Nat
  trustScore : String

/-- The public projection of a row used by the listing. -/
def summaryOf (a : AgentRow) : RecentSummary :=
  { agentId := a.id, name := a.agentData.name, owner := a.agentData.owner
    registeredAt := a.registeredAt, trustScore := a.trustScore }

/-- Outcome of `GET /v1/agents/recent`: the page, the `total` count and the
`returned` count — or the handler's `catch` payload
(`{agents: [], total: 0, returned: 0, error: ...}`, sent with status 200)
when the database reports an error. -/
inductive ListResult where
  | ok (agents : List RecentSummary) (total : Nat) (returned : Nat)
  | dbError

/-- `ORDER BY registered_at DESC`. -/
def regDesc (a b : AgentRow) : Prop := b.registeredAt ≤ a.registeredAt

instance : DecidableRel regDesc := fun a b => Nat.decLe b.registeredAt a.registeredAt

instance : IsTotal AgentRow regDesc :=
  ⟨fun a b => (Nat.le_total b.registeredAt a.registeredAt).imp id id⟩

instance : IsTrans AgentRow regDesc :=
  ⟨fun _ _ _ h1 h2 => Nat.le_trans h2 h1⟩

/-- The effective limit (`api-index.js:480`):
`Math.min(parseInt(req.query.limit) || 10, 100)`.  `parseInt` of an absent or
non-numeric parameter is `NaN`, and both `NaN` and `0` fall to the default
`10` through `||`; any other parsed integer — negative ones included — is
kept and capped at `100`. -/
def effLimit (lp : Option Int) : Int :=
  min (match lp with | none => 10 | some n => if n = 0 then 10 else n) 100

/-- The `GET /v1/agents/recent` handler (`api-index.js:478-516`): sort the
committed rows by `registered_at` descending, take `LIMIT`, project, and
report the full `COUNT(*)` as `total`.  PostgreSQL rejects a negative
`LIMIT`, which the handler's `catch` turns into the error payload. -/
def listRecent (s : Store) (lp : Option Int) : ListResult :=
  let lim := effLimit lp
  if lim < 0 then .dbError
  else
    let page := ((List.insertionSort regDesc s.agents).take lim.toNat).map summaryOf
    .ok page s.agents.length page.length

/-! ## Helper lemmas and concrete fixtures -/

theorem logAttempt_fst_agents (env : Env) (k : Nat) (row : AttemptRow) (s : Store) :
    ((logAttempt env k row s).1).agents = s.agents := by
  unfold logAttempt
  split <;> rfl

theorem logAttempt_fst_emailQueue (env : Env) (k : Nat) (row : AttemptRow) (s : Store) :
    ((logAttempt env k row s).1).emailQueue = s.emailQueue := by
  unfold logAttempt
  split <;> rfl

theorem hasAgentId_false_iff (s : Store) (i : String) :
    hasAgentId s i = false ↔ findAgent s i = none := by
  unfold hasAgentId findAgent
  simp [List.any_eq_false, List.find?_eq_none]

/-- A concrete stored record, as produced by a successful registration. -/
def demoData : AgentData :=
  buildAgentData ⟨.str "Bot", .undef, .str "Acme", .undef, .undef, .undef⟩

def demoMeta : Metadata := ⟨"api", "v1", "127.0.0.1", "unknown", "direct-api"⟩

def demoRow : AgentRow :=
  ⟨"TEMP-1-ABC", "uuid-1", "a@b.com", "registered", "pending", "TEMP-95%", 1,
   demoData, demoMeta⟩

def demoStore : Store := ⟨[demoRow], [], []⟩

def emptyStore : Store := ⟨[], [], []⟩

/-- A backing store in which every operation succeeds. -/
def envOk : Env := ⟨fun _ => true⟩

def demoCtx : ReqCtx := ⟨"127.0.0.1", none, none⟩

/-! ## C4 — details endpoint requires an email -/

/-- C4: for every store and agent id, a `GET /v1/agent/:agentId` request with
no `email` query parameter is answered 400 (`Email required`); in particular
the full view — with `internalId`, `ownerEmail` and `metadata` — is never
returned without a supplied email. -/
theorem getDetails_missing_email (s : Store) (i : String) :
    getDetails s i none =
      .badRequest "Email required" "Please provide email parameter for verification" := rfl

/-! ## C2 — invalid email is rejected with 400 and no record is created -/

theorem register_email_fail_parts (env : Env) (ctx : ReqCtx) (body : RegisterBody)
    (nowMs : Nat) (ds : List Char) (uuid baseUrl : String) (s0 : Store)
    (h : emailValid body.email = false) :
    (register env ctx body nowMs ds uuid baseUrl s0).result =
      .badRequest "Valid email address is required"
        "Please provide a valid email address for agent registration" ∧
    (register env ctx body nowMs ds uuid baseUrl s0).store.agents = s0.agents ∧
    (register env ctx body nowMs ds uuid baseUrl s0).store.emailQueue = s0.emailQueue := by
  unfold register
  rw [h]
  by_cases h0 : env.ok 0 <;> by_cases h1 : env.ok 1 <;>
    simp [logAttempt, h0, h1]

theorem register_agent_fail_parts (env : Env) (ctx : ReqCtx) (body : RegisterBody)
    (nowMs : Nat) (ds : List Char) (uuid baseUrl : String) (s0 : Store)
    (hv : emailValid body.email = true) (ha : agentValid body.agent = false) :
    (register env ctx body nowMs ds uuid baseUrl s0).result =
      .badRequest "Incomplete agent data" "Agent must have at least name and owner fields" ∧
    (register env ctx body nowMs ds uuid baseUrl s0).store.agents = s0.agents ∧
    (register env ctx body nowMs ds uuid baseUrl s0).store.emailQueue = s0.emailQueue := by
  cases hb : body.email with
  | none => rw [hb] at hv; exact absurd hv (by simp [emailValid])
  | some e =>
    unfold register
    rw [hb] at hv ⊢
    rw [hv]
    by_cases h0 : env.ok 0 <;> by_cases h1 : env.ok 1 <;>
      simp [logAttempt, h0, h1, ha]

/-- C2: a registration whose email is absent, empty or lacks `@`
(`emailValid = false`) is answered 400 `Valid email address is required`, the
`agents` table is unchanged, and a subsequent verify of any id that did not
exist before still answers `NotFound`. -/
theorem register_invalid_email (env : Env) (ctx : ReqCtx) (body : RegisterBody)
    (nowMs : Nat) (ds : List Char) (uuid baseUrl : String) (s0 : Store)
    (h : emailValid body.email = false) :
    (register env ctx body nowMs ds uuid baseUrl s0).result =
      .badRequest "Valid email address is required"
        "Please provide a valid email address for agent registration" ∧
    (register env ctx body nowMs ds uuid baseUrl s0).store.agents = s0.agents ∧
    ∀ i, hasAgentId s0 i = false →
      verify (register env ctx body nowMs ds uuid baseUrl s0).store i =
        .notFound "Agent not found" ("No agent found with ID: " ++ i) := by
  obtain ⟨h1, h2, -⟩ :=
    register_email_fail_parts env ctx body nowMs ds uuid baseUrl s0 h
  refine ⟨h1, h2, ?_⟩
  intro i hi
  unfold verify
  have hfind : findAgent (register env ctx body nowMs ds uuid baseUrl s0).store i = none := by
    rw [← hasAgentId_false_iff]
    unfold hasAgentId
    rw [h2]
    exact hi
  rw [hfind]

/-- Witness for C2 at a concrete input: email `"ab.com"` (no `@`) on the
empty store. -/
theorem register_invalid_email_witness :
    (register envOk demoCtx ⟨some "ab.com", none, JsVal.undef⟩ 0 [] "u" "" emptyStore).result =
      .badRequest "Valid email address is required"
        "Please provide a valid email address for agent registration" ∧
    verify (register envOk demoCtx ⟨some "ab.com", none, JsVal.undef⟩ 0 [] "u" "" emptyStore).store
        "TEMP-1-ABC" =
      .notFound "Agent not found" "No agent found with ID: TEMP-1-ABC" := by
  obtain ⟨h1, _, h3⟩ :=
    register_invalid_email envOk demoCtx ⟨some "ab.com", none, JsVal.undef⟩ 0 [] "u" ""
      emptyStore (by decide)
  exact ⟨h1, h3 "TEMP-1-ABC" rfl⟩

/-! ## C9 — what validation failures do and do not write -/

/-- C9 counterexample: the claim says a request that ends in a validation
error writes **no** persisted table at all.  But the handler logs every
attempt into the `registration_attempts` table before validating, and logs
the validation failure as well: an invalid-email request against the empty
store ends 400 yet leaves two audit rows behind. -/
theorem register_validation_audit_write_cex :
    (register envOk demoCtx ⟨none, none, JsVal.undef⟩ 0 [] "u" "" emptyStore).result =
      RegisterResult.badRequest "Valid email address is required"
        "Please provide a valid email address for agent registration" ∧
    emptyStore.attempts.length = 0 ∧
    ((register envOk demoCtx ⟨none, none, JsVal.undef⟩ 0 [] "u" "" emptyStore).store.attempts).length
      = 2 := by
  exact ⟨rfl, rfl, rfl⟩

/-- C9 (amended): for every request that fails validation (invalid email or
incomplete agent data), the error is returned before any write to the record
store or the notification queue is attempted — `agents` and `email_queue` are
unchanged — but the `registration_attempts` audit table is written (attempt
and failure rows), so "no persisted table is written" does not hold. -/
theorem register_validation_no_record_writes (env : Env) (ctx : ReqCtx)
    (body : RegisterBody) (nowMs : Nat) (ds : List Char) (uuid baseUrl : String) (s0 : Store)
    (h : emailValid body.email = false ∨ agentValid body.agent = false) :
    (register env ctx body nowMs ds uuid baseUrl s0).store.agents = s0.agents ∧
    (register env ctx body nowMs ds uuid baseUrl s0).store.emailQueue = s0.emailQueue ∧
    ∃ e m, (register env ctx body nowMs ds uuid baseUrl s0).result =
      RegisterResult.badRequest e m := by
  by_cases hv : emailValid body.email = true
  · have ha : agentValid body.agent = false := by
      rcases h with h | h
      · rw [hv] at h; cases h
      · exact h
    obtain ⟨h1, h2, h3⟩ := register_agent_fail_parts env ctx body nowMs ds uuid baseUrl s0 hv ha
    exact ⟨h2, h3, _, _, h1⟩
  · have hv' : emailValid body.email = false := by
      cases hval : emailValid body.email
      · rfl
      · exact absurd hval hv
    obtain ⟨h1, h2, h3⟩ := register_email_fail_parts env ctx body nowMs ds uuid baseUrl s0 hv'
    exact ⟨h2, h3, _, _, h1⟩

/-- Witness for the amended C9: a body with a valid email but no `agent`
object leaves `agents` and `email_queue` untouched. -/
theorem register_validation_no_record_writes_witness :
    (register envOk demoCtx ⟨some "a@b.com", none, JsVal.undef⟩ 0 [] "u" "" emptyStore).store.agents
        = emptyStore.agents ∧
    (register envOk demoCtx ⟨some "a@b.com", none, JsVal.undef⟩ 0 [] "u" ""
        emptyStore).store.emailQueue = emptyStore.emailQueue := by
  obtain ⟨h1, h2, -⟩ :=
    register_validation_no_record_writes envOk demoCtx ⟨some "a@b.com", none, JsVal.undef⟩
      0 [] "u" "" emptyStore (Or.inr rfl)
  exact ⟨h1, h2⟩

/-! ## C10 — the required-field check is JS truthiness -/

/-- C10: the required-field check on the agent payload is JavaScript
truthiness, not a string check.  With a valid email: if `agent.name` or
`agent.owner` is falsy (empty string, `0`, `false`, `null`, absent) the
registration is rejected 400 `Incomplete agent data`; if both are truthy —
whatever their type, e.g. a number — it is accepted (against a working
store) and the value is persisted verbatim in the stored `agent_data`. -/
theorem register_truthiness (env : Env) (ctx : ReqCtx) (e : String) (a : AgentInput)
    (nm : JsVal) (nowMs : Nat) (ds : List Char) (uuid baseUrl : String) (s0 : Store)
    (he : emailValid (some e) = true) :
    ((a.name.truthy = false ∨ a.owner.truthy = false) →
      (register env ctx ⟨some e, some a, nm⟩ nowMs ds uuid baseUrl s0).result =
        RegisterResult.badRequest "Incomplete agent data"
          "Agent must have at least name and owner fields") ∧
    ((∀ k, env.ok k = true) → a.name.truthy = true → a.owner.truthy = true →
      ∃ r, (register env ctx ⟨some e, some a, nm⟩ nowMs ds uuid baseUrl s0).store.agents =
            s0.agents ++ [r] ∧
        r.agentData.name = a.name ∧ r.agentData.owner = a.owner ∧
        ∃ resp, (register env ctx ⟨some e, some a, nm⟩ nowMs ds uuid baseUrl s0).result =
          RegisterResult.created resp ∧ resp.agentId = generateTempId nowMs ds) := by
  constructor
  · intro hfalsy
    have ha : agentValid (some a) = false := by
      unfold agentValid
      rcases hfalsy with h | h <;> simp [h]
    exact (register_agent_fail_parts env ctx ⟨some e, some a, nm⟩ nowMs ds uuid baseUrl s0
      he ha).1
  · intro hok hn ho
    refine ⟨mkAgentRow ctx e a nowMs ds uuid, ?_, rfl, rfl, ?_⟩
    · unfold register
      rw [he]
      simp [logAttempt, txPersist, hok, agentValid, hn, ho]
    · refine ⟨successResponse (generateTempId nowMs ds) baseUrl nowMs, ?_, rfl⟩
      unfold register
      rw [he]
      simp [logAttempt, txPersist, hok, agentValid, hn, ho]

/-- Witness for C10: `agent.name = 0` (falsy number) is rejected as
incomplete; `agent.name = 5` (truthy number) is accepted and the number `5`
is stored verbatim as the persisted `agent_data.name`. -/
theorem register_truthiness_witness :
    (register envOk demoCtx
        ⟨some "a@b.com", some ⟨JsVal.num 0, .undef, .str "Acme", .undef, .undef, .undef⟩,
         JsVal.undef⟩ 1 ['x'] "u" "" emptyStore).result =
      RegisterResult.badRequest "Incomplete agent data"
        "Agent must have at least name and owner fields" ∧
    ∃ r, (register envOk demoCtx
        ⟨some "a@b.com", some ⟨JsVal.num 5, .undef, .str "Acme", .undef, .undef, .undef⟩,
         JsVal.undef⟩ 1 ['x'] "u" "" emptyStore).store.agents = emptyStore.agents ++ [r] ∧
      r.agentData.name = JsVal.num 5 ∧ r.agentData.owner = JsVal.str "Acme" := by
  constructor
  · exact (register_truthiness envOk demoCtx "a@b.com"
      ⟨JsVal.num 0, .undef, .str "Acme", .undef, .undef, .undef⟩ JsVal.undef 1 ['x'] "u" ""
      emptyStore (by decide)).1 (Or.inl rfl)
  · obtain ⟨r, h1, h2, h3, -⟩ := (register_truthiness envOk demoCtx "a@b.com"
      ⟨JsVal.num 5, .undef, .str "Acme", .undef, .undef, .undef⟩ JsVal.undef 1 ['x'] "u" ""
      emptyStore (by decide)).2 (fun _ => rfl) rfl rfl
    exact ⟨r, h1, h2, h3⟩

/-! ## C3 — wrong owner answers 403, not 404 -/

/-- C3 counterexample: the claim quantifies over **every** caller-supplied
email that mismatches the stored `ownerEmail`.  A supplied empty email
(`?email=`) mismatches the stored `a@b.com`, yet the handler's `if (!email)`
treats the empty string as missing and answers 400 `Email required`, not 403
`Unauthorized`. -/
theorem getDetails_empty_email_cex :
    hasAgentId demoStore "TEMP-1-ABC" = true ∧
    (strLower "" == strLower demoRow.email) = false ∧
    getDetails demoStore "TEMP-1-ABC" (some "") =
      DetailsResult.badRequest "Email required"
        "Please provide email parameter for verification" := by
  exact ⟨rfl, rfl, rfl⟩

/-- C3 (amended): for every stored record and every caller-supplied
**non-empty** email that does not case-insensitively equal the stored
`ownerEmail`, the details endpoint answers 403 `Unauthorized`, not 404; an
empty supplied email is treated like a missing one (400).  `NotFound` is
returned only when no record with the id exists, regardless of the email
value. -/
theorem getDetails_mismatch_unauthorized (s : Store) (i e : String) (a : AgentRow)
    (he : e ≠ "") (hfind : findAgent s i = some a)
    (hmm : strLower e ≠ strLower a.email) :
    getDetails s i (some e) =
      DetailsResult.unauthorized "Unauthorized" "Email does not match agent registration" ∧
    ∀ eo : Option String,
      getDetails s i eo = DetailsResult.notFound "Agent not found" →
      hasAgentId s i = false := by
  constructor
  · unfold getDetails
    rw [hfind]
    simp [he, hmm]
  · intro eo hnf
    rw [hasAgentId_false_iff]
    cases eo with
    | none => simp [getDetails] at hnf
    | some e' =>
      by_cases he' : (e' == "") = true
      · simp [getDetails, he'] at hnf
      · rw [Bool.not_eq_true] at he'
        cases hf : findAgent s i with
        | none => rfl
        | some a' =>
          exfalso
          unfold getDetails at hnf
          simp only [he', hf, Bool.false_eq_true, if_false] at hnf
          split at hnf <;> simp at hnf

/-- Witness for the amended C3 at a concrete input: email `B@X.COM` against
the stored `a@b.com`. -/
theorem getDetails_mismatch_unauthorized_witness :
    getDetails demoStore "TEMP-1-ABC" (some "B@X.COM") =
      DetailsResult.unauthorized "Unauthorized" "Email does not match agent registration" :=
  (getDetails_mismatch_unauthorized demoStore "TEMP-1-ABC" "B@X.COM" demoRow
    (by decide) rfl (by decide)).1

/-! ## C5 — how the listing limit is defaulted and clamped -/

/-- C5 counterexample: the claim says an absent **or non-positive** limit
defaults to 10.  `parseInt('-5') || 10` is `-5`, which is passed to the SQL
`LIMIT`; PostgreSQL rejects a negative limit and the handler's `catch`
answers the error payload with **no** records — not the one stored record the
default of 10 would return. -/
theorem listRecent_negative_limit_cex :
    demoStore.agents.length = 1 ∧
    listRecent demoStore (some (-5)) = ListResult.dbError := by
  exact ⟨rfl, rfl⟩

/-- C5 (amended): the effective limit is the caller-supplied value clamped to
a maximum of 100, and defaults to 10 when the limit is absent (`parseInt`
gives `NaN`) or zero; a **negative** supplied limit is not defaulted — it
reaches the SQL `LIMIT` and the call fails with the error payload.  In
particular `listRecent(500)` returns at most 100 records and `listRecent()`
at most 10. -/
theorem listRecent_limit (s : Store) (lp : Option Int) :
    (∀ n : Int, lp = some n → n < 0 → listRecent s lp = ListResult.dbError) ∧
    (∀ ags t r, listRecent s lp = ListResult.ok ags t r →
      ags.length ≤ 100 ∧
      ((lp = none ∨ lp = some 0) → ags.length ≤ 10) ∧
      (∀ n : Int, lp = some n → 0 < n → ags.length ≤ n.toNat)) := by
  constructor
  · rintro n rfl hneg
    have h : effLimit (some n) < 0 := by
      unfold effLimit
      have hn0 : ¬ n = 0 := by omega
      simp only [hn0, if_false]
      omega
    simp [listRecent, h]
  · intro ags t r hok
    by_cases hneg : effLimit lp < 0
    · simp [listRecent, hneg] at hok
    · have hchar : listRecent s lp =
          ListResult.ok
            (((List.insertionSort regDesc s.agents).take (effLimit lp).toNat).map summaryOf)
            s.agents.length
            (((List.insertionSort regDesc s.agents).take (effLimit lp).toNat).map
              summaryOf).length := by
        simp [listRecent, hneg]
      rw [hchar] at hok
      obtain ⟨hags, -, -⟩ := ListResult.ok.inj hok
      have hlen : ags.length ≤ (effLimit lp).toNat := by
        rw [← hags, List.length_map, List.length_take]
        exact min_le_left _ _
      refine ⟨?_, ?_, ?_⟩
      · refine le_trans hlen ?_
        have : effLimit lp ≤ 100 := by
          unfold effLimit
          exact min_le_right _ _
        omega
      · rintro (rfl | rfl) <;> exact le_trans hlen (by simp [effLimit])
      · rintro n rfl hpos
        refine le_trans hlen ?_
        have hn0 : ¬ n = 0 := by omega
        have : effLimit (some n) ≤ n := by
          unfold effLimit
          simp only [hn0, if_false]
          exact min_le_left _ _
        omega

/-- Witness for the amended C5: a limit of 500 against the one-record store
yields a page of at most 100 (here: one) record. -/
theorem listRecent_limit_witness :
    [summaryOf demoRow].length ≤ 100 ∧
    listRecent demoStore (some (-5)) = ListResult.dbError := by
  constructor
  · exact ((listRecent_limit demoStore (some 500)).2 [summaryOf demoRow] 1 1 rfl).1
  · exact (listRecent_limit demoStore (some (-5))).1 (-5) rfl (by decide)

/-! ## C6 — listing order and the total count -/

/-- A second stored record, registered later than `demoRow`. -/
def demoRow2 : AgentRow :=
  ⟨"TEMP-5-XYZ", "uuid-2", "c@d.com", "registered", "pending", "TEMP-95%", 5,
   buildAgentData ⟨.str "Crawler", .undef, .str "Initech", .undef, .undef, .undef⟩, demoMeta⟩

def demoStore2 : Store := ⟨[demoRow, demoRow2], [], []⟩

/-- C6: for every state of the record store (and any absent or non-negative
limit parameter, the ones under which the SQL succeeds), the listing is
ordered by `registeredAt` descending, the response's `total` equals the full
number of records in the store — not the page size — and, when the limit
covers the store, the page is exactly (a permutation by equal timestamps of)
the whole store's public projection. -/
theorem listRecent_order_total (s : Store) (lp : Option Int)
    (h : lp = none ∨ ∃ n : Int, lp = some n ∧ 0 ≤ n) :
    ∃ ags, listRecent s lp = ListResult.ok ags s.agents.length ags.length ∧
      List.Pairwise (fun x y => y.registeredAt ≤ x.registeredAt) ags ∧
      (s.agents.length ≤ (effLimit lp).toNat →
        List.Perm ags (s.agents.map summaryOf)) := by
  have hnonneg : ¬ effLimit lp < 0 := by
    unfold effLimit
    rcases h with rfl | ⟨n, rfl, hn⟩
    · simp
    · by_cases hn0 : n = 0 <;> simp only [hn0, if_true, if_false] <;> omega
  refine ⟨((List.insertionSort regDesc s.agents).take (effLimit lp).toNat).map summaryOf,
    ?_, ?_, ?_⟩
  · simp [listRecent, hnonneg]
  · have hsorted : List.Sorted regDesc (List.insertionSort regDesc s.agents) :=
      List.sorted_insertionSort regDesc s.agents
    have htake := List.Pairwise.sublist (List.take_sublist (effLimit lp).toNat _) hsorted
    rw [List.pairwise_map]
    exact htake.imp (fun hab => hab)
  · intro hle
    have hlen : (List.insertionSort regDesc s.agents).length = s.agents.length :=
      (List.perm_insertionSort regDesc s.agents).length_eq
    rw [List.take_of_length_le (by rw [hlen]; exact hle)]
    exact (List.perm_insertionSort regDesc s.agents).map summaryOf

/-- Witness for C6 on a concrete two-record store with no limit parameter. -/
theorem listRecent_order_total_witness :
    ∃ ags, listRecent demoStore2 none = ListResult.ok ags demoStore2.agents.length ags.length ∧
      List.Pairwise (fun x y => y.registeredAt ≤ x.registeredAt) ags ∧
      (demoStore2.agents.length ≤ (effLimit none).toNat →
        List.Perm ags (demoStore2.agents.map summaryOf)) :=
  listRecent_order_total demoStore2 none (Or.inl rfl)

/-! ## C7 — what the verify response does and does not expose -/

/-- `demoRow` with a different `registeredAt` but the same seven fields the
claim lists as the whole public view. -/
def demoRowLater : AgentRow := { demoRow with registeredAt := 2 }

/-- `demoRow` with different private fields (`ownerEmail`, `internalId`,
`metadata`, and the non-public `description`), all public fields equal. -/
def demoRowOther : AgentRow :=
  { demoRow with
    email := "z@z.com", internalId := "uuid-9"
    metadata := ⟨"api", "v1", "10.0.0.9", "curl", "mcp"⟩
    agentData := { demoRow.agentData with description := .str "changed" } }

/-- C7 counterexample: the claim says verify returns **exactly** `publicId`,
`status`, `blockchainStatus` (+ message), `trustScore` and the
`name`/`owner`/`version` subset of `agentData`.  Two records equal on all
seven of those fields but with different `registeredAt` produce different
responses: the response also carries `registeredAt`, so it is not exactly the
claimed field list. -/
theorem verify_view_registeredAt_cex :
    demoRow.id = demoRowLater.id ∧ demoRow.status = demoRowLater.status ∧
    demoRow.blockchainStatus = demoRowLater.blockchainStatus ∧
    demoRow.trustScore = demoRowLater.trustScore ∧
    demoRow.agentData.name = demoRowLater.agentData.name ∧
    demoRow.agentData.owner = demoRowLater.agentData.owner ∧
    demoRow.agentData.version = demoRowLater.agentData.version ∧
    verifyView demoRow ≠ verifyView demoRowLater := by
  refine ⟨rfl, rfl, rfl, rfl, rfl, rfl, rfl, ?_⟩
  intro h
  have : (verifyView demoRow).registeredAt = (verifyView demoRowLater).registeredAt := by
    rw [h]
  simp [verifyView, demoRow, demoRowLater] at this

/-- C7 (amended): for every stored record, verify on its `publicId` answers
200 with the view built from the record, which exposes exactly `publicId`,
`status`, `blockchainStatus` with its explanatory message, `trustScore`, the
`name`/`owner`/`version` subset of `agentData`, **plus** `registeredAt`, a
`verified` flag and a human-readable message; it never contains the record's
email, internal id or metadata — two records agreeing on the eight exposed
record fields get identical responses, whatever their `ownerEmail`,
`internalId`, `metadata` or remaining `agentData` fields. -/
theorem verify_public_view (s : Store) (i : String) (a b c : AgentRow)
    (hfind : findAgent s i = some a)
    (h1 : b.id = c.id) (h2 : b.status = c.status)
    (h3 : b.blockchainStatus = c.blockchainStatus) (h4 : b.trustScore = c.trustScore)
    (h5 : b.agentData.name = c.agentData.name) (h6 : b.agentData.owner = c.agentData.owner)
    (h7 : b.agentData.version = c.agentData.version) (h8 : b.registeredAt = c.registeredAt) :
    verify s i = VerifyResult.ok (verifyView a) ∧
    (verifyView a).agentId = a.id ∧
    (verifyView a).status = a.status ∧
    (verifyView a).blockchainStatus = a.blockchainStatus ∧
    (verifyView a).trustScore = a.trustScore ∧
    (verifyView a).agentName = a.agentData.name ∧
    (verifyView a).agentOwner = a.agentData.owner ∧
    (verifyView a).agentVersion = a.agentData.version ∧
    (verifyView a).registeredAt = a.registeredAt ∧
    verifyView b = verifyView c := by
  refine ⟨?_, rfl, rfl, rfl, rfl, rfl, rfl, rfl, rfl, ?_⟩
  · unfold verify
    rw [hfind]
  · unfold verifyView
    rw [h1, h2, h3, h4, h5, h6, h7, h8]

/-- Witness for the amended C7: the response for `demoRow` and the
independence of the view from email, internal id, metadata and description
(`demoRowOther` differs from `demoRow` in exactly those). -/
theorem verify_public_view_witness :
    verify demoStore "TEMP-1-ABC" = VerifyResult.ok (verifyView demoRow) ∧
    verifyView demoRow = verifyView demoRowOther := by
  have h := verify_public_view demoStore "TEMP-1-ABC" demoRow demoRow demoRowOther
    rfl rfl rfl rfl rfl rfl rfl rfl rfl
  exact ⟨h.1, h.2.2.2.2.2.2.2.2.2⟩

/-! ## C8 — the shape of the generated agent id -/

/-- The base-36 digit alphabet `Number.prototype.toString(36)` draws from. -/
def base36 : List Char := "0123456789abcdefghijklmnopqrstuvwxyz".data

/-- RFC 3986 unreserved characters: the ones needing no percent-encoding. -/
def urlSafeChar (c : Char) : Bool :=
  c.isAlphanum || c == '-' || c == '_' || c == '.' || c == '~'

theorem digitChar_isDigit (n : Nat) (h : n < 10) : (Nat.digitChar n).isDigit = true := by
  interval_cases n <;> decide

theorem toDigitsCore_digits (fuel : Nat) : ∀ (n : Nat) (ds : List Char),
    (∀ c ∈ ds, c.isDigit = true) →
    ∀ c ∈ Nat.toDigitsCore 10 fuel n ds, c.isDigit = true := by
  induction fuel with
  | zero => intro n ds hds c hc; exact hds c hc
  | succ f ih =>
    intro n ds hds c hc
    rw [Nat.toDigitsCore] at hc
    by_cases h : n / 10 = 0
    · simp only [h, if_pos rfl] at hc
      rcases List.mem_cons.mp hc with rfl | hmem
      · exact digitChar_isDigit _ (Nat.mod_lt _ (by norm_num))
      · exact hds c hmem
    · simp only [if_neg h] at hc
      refine ih _ _ ?_ c hc
      intro c' hc'
      rcases List.mem_cons.mp hc' with rfl | hmem
      · exact digitChar_isDigit _ (Nat.mod_lt _ (by norm_num))
      · exact hds c' hmem

/-- Every character of the decimal rendering of a natural number is a digit. -/
theorem repr_digits (n : Nat) : ∀ c ∈ (Nat.repr n).data, c.isDigit = true := by
  intro c hc
  have hdata : (Nat.repr n).data = Nat.toDigits 10 n := by
    simp [Nat.repr, List.asString]
  rw [hdata] at hc
  exact toDigitsCore_digits _ _ _ (by simp) c hc

/-- C8 counterexample: the claim says the randomized suffix has **at least 6**
uppercase alphanumeric characters (pattern `TEMP-<digits>-<6 alnum>`).  But
`Math.random().toString(36)` renders in shortest form: the draw `0.5` renders
as `"0.i"`, so `substring(2, 8).toUpperCase()` is just `"I"` — a one-character
suffix. -/
theorem tempId_short_suffix_cex :
    generateTempId 1736899200000 ['i'] = "TEMP-1736899200000-I" ∧
    (randomSuffix ['i']).length = 1 := by
  exact ⟨rfl, rfl⟩

/-- C8 (amended): every generated id is the tier prefix `TEMP`, the
millisecond timestamp in decimal, and an uppercased base-36 suffix of **at
most** six characters (exactly six whenever the random draw's base-36
expansion has at least six fraction digits — the typical case), separated by
`-`; every character of the id is URL-safe. -/
theorem tempId_format (nowMs : Nat) (ds : List Char) (hds : ∀ c ∈ ds, c ∈ base36) :
    generateTempId nowMs ds = "TEMP-" ++ Nat.repr nowMs ++ "-" ++ randomSuffix ds ∧
    (randomSuffix ds).length ≤ 6 ∧
    (6 ≤ ds.length → (randomSuffix ds).length = 6) ∧
    (∀ c ∈ (randomSuffix ds).data, (c.isUpper || c.isDigit) = true) ∧
    (∀ c ∈ (generateTempId nowMs ds).data, urlSafeChar c = true) := by
  have hsuffix : ∀ c ∈ (randomSuffix ds).data, ∃ d ∈ base36, c = d.toUpper := by
    intro c hc
    unfold randomSuffix at hc
    simp only [List.mem_map] at hc
    obtain ⟨d, hd, rfl⟩ := hc
    exact ⟨d, hds d (List.mem_of_mem_take hd), rfl⟩
  have hupper : ∀ d ∈ base36, (d.toUpper.isUpper || d.toUpper.isDigit) = true := by decide
  have hsafe36 : ∀ d ∈ base36, urlSafeChar d.toUpper = true := by decide
  refine ⟨rfl, ?_, ?_, ?_, ?_⟩
  · unfold randomSuffix
    simp [List.length_take]
  · intro h6
    unfold randomSuffix
    simp [List.length_take]
    omega
  · intro c hc
    obtain ⟨d, hd, rfl⟩ := hsuffix c hc
    exact hupper d hd
  · intro c hc
    have hsplit : (generateTempId nowMs ds).data =
        "TEMP-".data ++ (Nat.repr nowMs).data ++ "-".data ++ (randomSuffix ds).data := by
      unfold generateTempId
      have htos : toString nowMs = Nat.repr nowMs := rfl
      rw [htos]
      simp [String.data_append]
    rw [hsplit] at hc
    simp only [List.mem_append] at hc
    rcases hc with ((hc | hc) | hc) | hc
    · revert c hc
      decide
    · have : c.isDigit = true := repr_digits nowMs c hc
      unfold urlSafeChar
      simp [Char.isAlphanum, this]
    · revert c hc
      decide
    · obtain ⟨d, hd, rfl⟩ := hsuffix c hc
      exact hsafe36 d hd

/-- Witness for the amended C8 at a six-digit draw. -/
theorem tempId_format_witness :
    generateTempId 1736899200000 "k9m2x7".data =
      "TEMP-" ++ Nat.repr 1736899200000 ++ "-" ++ randomSuffix "k9m2x7".data ∧
    (randomSuffix "k9m2x7".data).length ≤ 6 := by
  have h := tempId_format 1736899200000 "k9m2x7".data (by decide)
  exact ⟨h.1, h.2.1⟩

/-! ## C1 — the registration transaction is atomic -/

/-- C1: for every registration request that passes validation, the insertion
of the agent record and the enqueueing of its single notification job are
atomic.  Whatever subset of database operations fails: (a) in every
observable (committed) store state of the run — initial state, after each
audit write, after the transaction — the agent row with the fresh id is
present exactly when its email-queue job is, so no state with one and not the
other is ever observable; and (b) the run either commits — 201, both the one
record row and the one notification job appended — or rolls back — 500, the
`agents` table and the `email_queue` exactly as before. -/
theorem register_atomic (env : Env) (ctx : ReqCtx) (e : String) (a : AgentInput)
    (nm : JsVal) (nowMs : Nat) (ds : List Char) (uuid baseUrl : String) (s0 : Store)
    (hv : emailValid (some e) = true) (ha : agentValid (some a) = true)
    (hfa : hasAgentId s0 (generateTempId nowMs ds) = false)
    (hfj : hasJobFor s0 (generateTempId nowMs ds) = false) :
    (∀ s ∈ (register env ctx ⟨some e, some a, nm⟩ nowMs ds uuid baseUrl s0).trace,
      hasAgentId s (generateTempId nowMs ds) = hasJobFor s (generateTempId nowMs ds)) ∧
    (((register env ctx ⟨some e, some a, nm⟩ nowMs ds uuid baseUrl s0).result =
        RegisterResult.created (successResponse (generateTempId nowMs ds) baseUrl nowMs) ∧
      (register env ctx ⟨some e, some a, nm⟩ nowMs ds uuid baseUrl s0).store.agents =
        s0.agents ++ [mkAgentRow ctx e a nowMs ds uuid] ∧
      (register env ctx ⟨some e, some a, nm⟩ nowMs ds uuid baseUrl s0).store.emailQueue =
        s0.emailQueue ++ [mkEmailJob e a nowMs ds]) ∨
     ((register env ctx ⟨some e, some a, nm⟩ nowMs ds uuid baseUrl s0).result =
        RegisterResult.serverError ∧
      (register env ctx ⟨some e, some a, nm⟩ nowMs ds uuid baseUrl s0).store.agents =
        s0.agents ∧
      (register env ctx ⟨some e, some a, nm⟩ nowMs ds uuid baseUrl s0).store.emailQueue =
        s0.emailQueue)) ∧
    (mkAgentRow ctx e a nowMs ds uuid).id = generateTempId nowMs ds ∧
    (mkEmailJob e a nowMs ds).agentId = generateTempId nowMs ds := by
  have hfa' : s0.agents.any (fun x => x.id == generateTempId nowMs ds) = false := hfa
  have hfj' : s0.emailQueue.any (fun j => j.agentId == generateTempId nowMs ds) = false := hfj
  refine ⟨?_, ?_, rfl, rfl⟩ <;>
  · by_cases h0 : env.ok 0 <;> by_cases h1 : env.ok 1 <;> by_cases h2 : env.ok 2 <;>
      by_cases h3 : env.ok 3 <;> by_cases h4 : env.ok 4 <;>
      simp [register, logAttempt, txPersist, mkAgentRow, mkEmailJob, hv, ha,
        h0, h1, h2, h3, h4, hasAgentId, hasJobFor, List.any_append, hfa', hfj']

/-- Witness for C1 at a concrete valid request on the empty store, with a
fully working backing store. -/
theorem register_atomic_witness :
    (∀ s ∈ (register envOk demoCtx
        ⟨some "a@b.com", some ⟨JsVal.str "Bot", .undef, .str "Acme", .undef, .undef, .undef⟩,
         JsVal.undef⟩ 7 ['k', '9', 'm'] "uuid-7" "" emptyStore).trace,
      hasAgentId s (generateTempId 7 ['k', '9', 'm']) =
        hasJobFor s (generateTempId 7 ['k', '9', 'm'])) ∧
    (register envOk demoCtx
        ⟨some "a@b.com", some ⟨JsVal.str "Bot", .undef, .str "Acme", .undef, .undef, .undef⟩,
         JsVal.undef⟩ 7 ['k', '9', 'm'] "uuid-7" "" emptyStore).store.agents =
      emptyStore.agents ++
        [mkAgentRow demoCtx "a@b.com" ⟨JsVal.str "Bot", .undef, .str "Acme", .undef, .undef, .undef⟩
          7 ['k', '9', 'm'] "uuid-7"] := by
  have h := register_atomic envOk demoCtx "a@b.com"
    ⟨JsVal.str "Bot", .undef, .str "Acme", .undef, .undef, .undef⟩ JsVal.undef
    7 ['k', '9', 'm'] "uuid-7" "" emptyStore (by decide) rfl rfl rfl
  have hcreated : (register envOk demoCtx
      ⟨some "a@b.com", some ⟨JsVal.str "Bot", .undef, .str "Acme", .undef, .undef, .undef⟩,
       JsVal.undef⟩ 7 ['k', '9', 'm'] "uuid-7" "" emptyStore).result =
      RegisterResult.created (successResponse (generateTempId 7 ['k', '9', 'm']) "" 7) := rfl
  refine ⟨h.1, ?_⟩
  rcases h.2.1 with ⟨-, hagents, -⟩ | ⟨hres, -, -⟩
  · exact hagents
  · rw [hcreated] at hres
    exact RegisterResult.noConfusion hres

end AstraSync
